import Mathlib

/-!
Verification development for the StreamScribe backend (FastAPI + SQLAlchemy +
Supabase storage).  The Python source is shallowly embedded: pure helper
functions become Lean functions on `String` / `List Char` / `List Nat`
(bytes), the database becomes an explicit `List Video`, and each endpoint
becomes a state-passing function returning the updated state together with an
`Except` carrying the HTTP status code and detail of a raised `HTTPException`.
-/

namespace StreamScribe

/-- Python whitespace characters recognised by `str.strip()` (ASCII part). -/
def isPySpace (c : Char) : Bool :=
  c = ' ' || c = '\t' || c = '\n' || c = '\r' || c = '\x0b' || c = '\x0c'

/-- Embedding of Python `str.strip()` on the underlying character list. -/
def pyStripList (l : List Char) : List Char :=
  ((l.dropWhile isPySpace).reverse.dropWhile isPySpace).reverse

/-- Embedding of Python `str.strip()`. -/
def pyStrip (s : String) : String :=
  String.mk (pyStripList s.data)

/-- Python `str.lower()` on a single character (ASCII range; the filenames
and titles the claims quantify over are ASCII). -/
def pyToLowerChar (c : Char) : Char :=
  if 'A' ≤ c ∧ c ≤ 'Z' then Char.ofNat (c.toNat + 32) else c

/-- Embedding of Python `str.lower()`. -/
def pyLower (s : String) : String :=
  String.mk (s.data.map pyToLowerChar)

/-! ## validators.py -/

/-- `ALLOWED_EXTENSIONS` from validators.py. -/
def ALLOWED_EXTENSIONS : List String := [".mp4", ".mov", ".avi", ".mkv", ".webm"]

/-- `ALLOWED_MIME_TYPES` from validators.py. -/
def ALLOWED_MIME_TYPES : List String :=
  ["video/mp4", "video/quicktime", "video/x-msvideo", "video/x-matroska", "video/webm"]

/-- `MAX_TITLE_LENGTH` from validators.py. -/
def MAX_TITLE_LENGTH : Nat := 255

/-- `MIN_TITLE_LENGTH` from validators.py. -/
def MIN_TITLE_LENGTH : Nat := 3

/-- Embedding of CPython `posixpath.rfind`: index of the last occurrence of
`c` in `l`, or `-1` when absent (as Python `str.rfind`). -/
def pyRfind : List Char → Char → Int
  | [], _ => -1
  | x :: xs, c =>
    let r := pyRfind xs c
    if r = -1 then (if x = c then 0 else -1) else r + 1

/-- Embedding of CPython `posixpath.splitext` (`os.path.splitext` on the
Linux deployment): split at the last dot after the last path separator,
unless every character between the separator and that dot is itself a dot
(leading dots of the base name never start an extension). -/
def splitext (p : List Char) : List Char × List Char :=
  let sepIndex := pyRfind p '/'
  let dotIndex := pyRfind p '.'
  if dotIndex > sepIndex then
    let base := (p.take dotIndex.toNat).drop (sepIndex + 1).toNat
    if base.any (fun c => c ≠ '.') then
      (p.take dotIndex.toNat, p.drop dotIndex.toNat)
    else
      (p, [])
  else
    (p, [])

/-- `validate_file_extension` from validators.py:
`_, ext = os.path.splitext(filename.lower()); return ext in ALLOWED_EXTENSIONS`. -/
def validate_file_extension (filename : String) : Bool :=
  let ext := String.mk (splitext (pyLower filename).data).2
  ALLOWED_EXTENSIONS.contains ext

/-- The `invalid_chars` list inside `validate_title` in validators.py. -/
def INVALID_TITLE_CHARS : List Char :=
  ['<', '>', ':', '"', '/', '\\', '|', '?', '*']

/-- `validate_title` from validators.py.  Returns `(is_valid, error)`.
Python `if not title or len(title.strip()) == 0` is emptiness of the string
or of its stripped form; the two length checks are on the UNSTRIPPED title;
the final loop reports the first invalid character found. -/
def validate_title (title : String) : Bool × String :=
  if title = "" ∨ (pyStrip title).length = 0 then
    (false, "Title cannot be empty")
  else if title.length < MIN_TITLE_LENGTH then
    (false, "Title must be at least 3 characters")
  else if title.length > MAX_TITLE_LENGTH then
    (false, "Title must be at most 255 characters")
  else
    match INVALID_TITLE_CHARS.find? (fun c => title.data.contains c) with
    | some c => (false, String.push "Title contains invalid character: " c)
    | none => (true, "")

/-! ## file_utils.py -/

/-- `MAX_FILE_SIZE_MB` from file_utils.py. -/
def MAX_FILE_SIZE_MB : Nat := 50

/-- `MAX_FILE_SIZE_BYTES` from file_utils.py. -/
def MAX_FILE_SIZE_BYTES : Nat := MAX_FILE_SIZE_MB * 1024 * 1024

/-- `validate_file_size` from file_utils.py.  The argument is a byte count
(the Python caller passes `len(file_data)`), hence a natural number. -/
def validate_file_size (file_size : Nat) : Bool × Option String :=
  if file_size > MAX_FILE_SIZE_BYTES then
    (false, some "File too large. Maximum size is 50MB")
  else if file_size = 0 then
    (false, some "File is empty")
  else
    (true, none)

/-! ## storage.py -/

/-- `get_file_type` from storage.py.  Bytes are embedded as `List Nat`.
The branch order and the literal byte strings are exactly those of the
source; note that the third comparison pits an at-most-8-byte slice against
a TEN byte literal (`b"\x00\x00\x00\x14ftypqt"`), exactly as the Python
does. -/
def get_file_type (file_data : List Nat) : String :=
  if file_data.take 4 = [0x00, 0x00, 0x00, 0x18] ∨
      file_data.take 4 = [0x00, 0x00, 0x00, 0x1c] then
    "video/mp4"
  else if file_data.take 4 = [0x52, 0x49, 0x46, 0x46] then
    "video/avi"
  else if file_data.take 8 =
      [0x00, 0x00, 0x00, 0x14, 0x66, 0x74, 0x79, 0x70, 0x71, 0x74] then
    "video/quicktime"
  else
    "video/mp4"

/-- `is_video_file` from storage.py (its local `allowed_types` list). -/
def is_video_file (mime_type : String) : Bool :=
  ["video/mp4", "video/quicktime", "video/x-msvideo",
    "video/x-matroska", "video/webm"].contains mime_type

/-! ## models.py / the videos table -/

/-- Row of the `videos` table (models.py `Video`); timestamps are
server-assigned and not referenced by any claim, so they are omitted. -/
structure Video where
  id : Nat
  title : String
  duration : Option Int
  file_size_mb : Option Int
  status : String
  storage_path : Option String
  storage_url : Option String
  original_filename : Option String
  mime_type : Option String
deriving DecidableEq, Repr

/-- A database state: the rows of the `videos` table in insertion order. -/
abbrev DB := List Video

/-! ## crud.py -/

/-- `crud.get_video`: first row whose primary key equals `video_id`. -/
def crud_get_video (db : DB) (video_id : Nat) : Option Video :=
  db.find? (fun v => v.id == video_id)

/-- `crud.get_videos`: optional status-equality filter (Python truthiness:
`if status:` skips both `None` and the empty string), then
`offset(skip).limit(limit)`. -/
def crud_get_videos (db : DB) (skip : Nat) (limit : Nat)
    (status : Option String) : List Video :=
  let q := match status with
    | some s => if s = "" then db else db.filter (fun v => v.status == s)
    | none => db
  (q.drop skip).take limit

/-- Primary-key assignment performed by the database on insert, modelled as
one more than the largest id in the table. -/
def crud_next_id (db : DB) : Nat :=
  db.foldl (fun m v => max m v.id) 0 + 1

/-- `crud.create_video`: rejects non-positive duration and titles that are
empty after stripping, otherwise inserts a row with the stripped title and
status `"processing"` and returns it.  The raised `ValueError` message is
the `error` payload. -/
def crud_create_video (db : DB) (title : String) (duration : Int)
    (file_size_mb : Option Int) : Except String (DB × Video) :=
  if duration ≤ 0 then
    .error "Duration must be positive"
  else if (pyStrip title).length = 0 then
    .error "Title cannot be empty"
  else
    let v : Video :=
      { id := crud_next_id db
        title := pyStrip title
        duration := some duration
        file_size_mb := file_size_mb
        status := "processing"
        storage_path := none
        storage_url := none
        original_filename := none
        mime_type := none }
    .ok (db ++ [v], v)

/-- `crud.delete_video`: fetch by id; when found, delete that row and
commit, returning `True`; otherwise return `False`. -/
def crud_delete_video (db : DB) (video_id : Nat) : Bool × DB :=
  match crud_get_video db video_id with
  | some _ => (true, db.eraseP (fun v => v.id == video_id))
  | none => (false, db)

/-- `crud.get_video_count_by_status`: the SQL
`SELECT status, COUNT(id) ... GROUP BY status`, i.e. each distinct status
value paired with the number of rows carrying it. -/
def get_video_count_by_status (db : DB) : List (String × Nat) :=
  ((db.map (fun v => v.status)).dedup).map
    (fun s => (s, (db.map (fun v => v.status)).count s))

/-! ## main.py endpoints -/

/-- Python `video.duration or 0` on the optional request field: `None` and
`0` are falsy and default to `0`; any other integer passes through. -/
def pyOrZero : Option Int → Int
  | none => 0
  | some d => if d = 0 then 0 else d

/-- `POST /api/videos` (main.py `create_video`): forwards the request body
to `crud.create_video` with `duration or 0`.  An `ok` result is the 201
response; an `error` is the `ValueError` escaping the handler (HTTP 500). -/
def api_create_video (db : DB) (title : String) (duration : Option Int)
    (file_size_mb : Option Int) : Except String (DB × Video) :=
  crud_create_video db title (pyOrZero duration) file_size_mb

/-- The fields of the `/api/stats` response referenced by the claims (the
float-valued duration/storage aggregates are not). -/
structure StatsResponse where
  total_videos : Nat
  status_breakdown : List (String × Nat)
deriving DecidableEq, Repr

/-- `GET /api/stats` (main.py `get_stats`): `total_videos` is the length of
`crud.get_videos(db, limit=10000)` (default `skip=0`, no status filter);
`status_breakdown` comes from `crud.get_video_count_by_status`. -/
def api_get_stats (db : DB) : StatsResponse :=
  let videos := crud_get_videos db 0 10000 none
  { total_videos := videos.length
    status_breakdown := get_video_count_by_status db }

/-- `DELETE /api/videos/{video_id}` (main.py `delete_video`).  The storage
bucket is a list of object paths; the attempted storage deletion is an
arbitrary oracle `storageOp` mapping bucket state to new bucket state plus
an outcome (`none` models a raised exception, swallowed by the handler's
`try/except`; `some b` models `delete_from_storage` returning `b`).  The
result is the final table, the final bucket, and the HTTP outcome. -/
def api_delete_video (storageAvailable : Bool)
    (storageOp : List String → List String × Option Bool)
    (db : DB) (bucket : List String) (video_id : Nat) :
    DB × List String × Except (Nat × String) String :=
  match crud_get_video db video_id with
  | none => (db, bucket, .error (404, "Video not found"))
  | some v =>
    let bucket2 :=
      if storageAvailable ∧ v.storage_path.isSome then (storageOp bucket).1
      else bucket
    let r := crud_delete_video db video_id
    if r.1 then
      (r.2, bucket2, .ok ("Video " ++ toString video_id ++ " deleted successfully"))
    else
      (r.2, bucket2, .error (404, "Video not found"))

/-! ## file_utils.py `sanitize_filename` -/

/-- Embedding of Python `str.replace(pat, rep)` on character lists:
left-to-right, non-overlapping replacement of every occurrence.  (The empty
pattern never arises in the source; returning the unmatched head keeps the
function total.) -/
def pyReplace (pat rep : List Char) : List Char → List Char
  | [] => []
  | c :: cs =>
    if h : pat ≠ [] ∧ pat.isPrefixOf (c :: cs) then
      rep ++ pyReplace pat rep ((c :: cs).drop pat.length)
    else
      c :: pyReplace pat rep cs
termination_by s => s.length
decreasing_by
  · have hp : 0 < pat.length := List.length_pos.mpr h.1
    simp only [List.length_drop, List.length_cons]
    omega
  · simp only [List.length_cons]
    omega

/-- Boolean substring occurrence (used to state that a sanitized filename
never contains `".."`): does `pat` occur contiguously in `l`? -/
def containsSub (pat : List Char) : List Char → Bool
  | [] => pat.isEmpty
  | c :: cs => pat.isPrefixOf (c :: cs) || containsSub pat cs

/-- The `dangerous_chars` list of `sanitize_filename` in file_utils.py, in
source order. -/
def dangerous_chars : List (List Char) :=
  [['/'], ['\\'], ['.', '.'], ['<'], ['>'], [':'], ['"'], ['|'], ['?'], ['*']]

/-- The loop body of `sanitize_filename` applied over `dangerous_chars`. -/
def sanitizeList (l : List Char) : List Char :=
  dangerous_chars.foldl (fun acc pat => pyReplace pat ['_'] acc) l

/-- `sanitize_filename` from file_utils.py: replace each dangerous pattern
by an underscore, in sequence. -/
def sanitize_filename (filename : String) : String :=
  String.mk (sanitizeList filename.data)

/-! ## main.py `upload_video` -/

/-- `POST /api/videos/upload` (main.py `upload_video`).  Inputs: the two
module-availability flags, the outcome of `upload_to_storage` (success flag
plus the storage path and public URL it would return), the table, the
uploaded filename, the optional form title (Python truthiness: `None` and
`""` both fall back to the sanitized filename's stem) and the raw bytes.
Result: the final table and the HTTP outcome (`ok` is the 201 response). -/
def api_upload_video (storageAvailable fileUtilsAvailable : Bool)
    (uploadOk : Bool) (storagePath fileUrl : String)
    (db : DB) (filename : String) (title : Option String)
    (file_data : List Nat) : DB × Except (Nat × String) Unit :=
  if storageAvailable = false ∨ fileUtilsAvailable = false then
    (db, .error (503, "File upload service not available. Storage not configured."))
  else
    let original_filename := sanitize_filename filename
    let video_title :=
      match title with
      | some t =>
        if t = "" then String.mk (splitext original_filename.data).1 else t
      | none => String.mk (splitext original_filename.data).1
    let file_size_bytes := file_data.length
    let vfs := validate_file_size file_size_bytes
    if vfs.1 = false then
      (db, .error (400, (vfs.2).getD ""))
    else
      let mime_type := get_file_type (file_data.take 2048)
      if is_video_file mime_type = false then
        (db, .error (400, "Invalid file type: " ++ mime_type ++ ". Only video files allowed."))
      else if uploadOk = false then
        (db, .error (500, "Failed to upload file"))
      else
        let v : Video :=
          { id := crud_next_id db
            title := video_title
            duration := none
            file_size_mb := some (Int.ofNat (file_size_bytes / (1024 * 1024)))
            status := "ready"
            storage_path := some storagePath
            storage_url := some fileUrl
            original_filename := some original_filename
            mime_type := some mime_type }
        (db ++ [v], .ok ())

/-! ## Sample rows used to instantiate the theorems -/

/-- A concrete metadata-only row. -/
def sampleVideo : Video :=
  { id := 1, title := "t", duration := none, file_size_mb := none,
    status := "ready", storage_path := none, storage_url := none,
    original_filename := none, mime_type := none }

/-- A concrete row with a backing storage object. -/
def sampleVideoStored : Video :=
  { id := 1, title := "t", duration := none, file_size_mb := some 1,
    status := "ready", storage_path := some "uploads/x.mp4",
    storage_url := some "https://cdn/x.mp4",
    original_filename := some "x.mp4", mime_type := some "video/mp4" }

/-! ## Theorems -/

/-- C4: the upload size check passes exactly when `0 < n ≤ 52428800`
(50 MB); a 0-byte payload is rejected, one byte over the maximum is
rejected, and exactly the maximum is accepted. -/
theorem validate_file_size_iff :
    (∀ n : Nat, (validate_file_size n).1 = true ↔ 0 < n ∧ n ≤ 52428800) ∧
    (validate_file_size 0).1 = false ∧
    (validate_file_size 52428800).1 = true ∧
    (validate_file_size 52428801).1 = false := by
  refine ⟨fun n => ?_, by decide, by decide, by decide⟩
  unfold validate_file_size MAX_FILE_SIZE_BYTES MAX_FILE_SIZE_MB
  split_ifs with h1 h2 <;> simp <;> omega

/-- C3 counterexample: the title `" A "` (one letter surrounded by spaces)
is accepted by `validate_title` although its stripped length is 1, below
the claimed minimum of 3: the length checks of the source inspect the
unstripped title. -/
theorem validate_title_trim_counterexample :
    (validate_title " A ").1 = true ∧ (pyStrip " A ").length = 1 ∧
    ¬ (3 ≤ (pyStrip " A ").length) := by decide

/-- C3 amended: `validate_title` accepts a title exactly when its stripped
form is non-empty, its UNSTRIPPED length lies in `[3, 255]`, and it
contains none of the fixed punctuation characters; `"ABC"` is accepted and
`"AB"` rejected. -/
theorem validate_title_spec :
    (∀ t : String, (validate_title t).1 = true ↔
      (0 < (pyStrip t).length ∧ MIN_TITLE_LENGTH ≤ t.length ∧
        t.length ≤ MAX_TITLE_LENGTH ∧
        INVALID_TITLE_CHARS.all (fun c => !(t.data.contains c)) = true)) ∧
    (validate_title "ABC").1 = true ∧ (validate_title "AB").1 = false := by
  refine ⟨fun t => ?_, by decide, by decide⟩
  unfold validate_title MIN_TITLE_LENGTH MAX_TITLE_LENGTH
  split_ifs with h1 h2 h3
  · rcases h1 with h1 | h1
    · subst h1; simp [pyStrip, pyStripList]
    · simp [h1]
  · simp; omega
  · simp; omega
  · rcases hfind : INVALID_TITLE_CHARS.find? (fun c => t.data.contains c) with _ | c
    · rw [List.find?_eq_none] at hfind
      push_neg at h1
      simp only [List.all_eq_true]
      constructor
      · intro _
        refine ⟨by omega, by omega, by omega, ?_⟩
        intro c hc
        simpa using hfind c hc
      · intro _; trivial
    · have hc := List.find?_some hfind
      have hmem := List.mem_of_find?_eq_some hfind
      simp only [List.all_eq_true]
      constructor
      · intro h; exact absurd h (by simp)
      · rintro ⟨-, -, -, hall⟩
        have := hall c hmem
        rw [hc] at this
        simp at this

/-- C9: evaluating `get_file_type` at a genuine QuickTime atom header
(`b"\x00\x00\x00\x14ftypqt"`) yields the default `"video/mp4"`, not
`"video/quicktime"`: the guard compares an at-most-8-byte slice with a
10-byte literal and can never hold, so the function only ever returns
`"video/mp4"` or `"video/avi"`; moreover only the first 2048 bytes (indeed
the first 8) are ever inspected. -/
theorem get_file_type_quicktime_unreachable :
    get_file_type [0x00, 0x00, 0x00, 0x14, 0x66, 0x74, 0x79, 0x70, 0x71, 0x74] =
      "video/mp4" ∧
    (∀ data : List Nat,
      get_file_type data = "video/mp4" ∨ get_file_type data = "video/avi") ∧
    (∀ data : List Nat, get_file_type data = get_file_type (data.take 2048)) := by
  refine ⟨by decide, fun data => ?_, fun data => ?_⟩
  · unfold get_file_type
    split_ifs with h1 h2 h3
    · exact Or.inl rfl
    · exact Or.inr rfl
    · exfalso
      have hlen := congrArg List.length h3
      simp [List.length_take] at hlen
      omega
    · exact Or.inl rfl
  · unfold get_file_type
    rw [List.take_take, List.take_take]
    norm_num

/-- C2: a metadata-only create request that omits the optional `duration`
field never succeeds: the endpoint substitutes `0` (Python `or 0`) and
`crud.create_video` raises `ValueError("Duration must be positive")` for
every non-positive duration, so the documented 201 response is unreachable
for such requests (evaluated concretely at the valid title
`"My Video"`). -/
theorem api_create_video_omitted_duration :
    (∀ (db : DB) (title : String) (fsmb : Option Int),
      api_create_video db title none fsmb =
        Except.error "Duration must be positive") ∧
    api_create_video [] "My Video" none none =
      Except.error "Duration must be positive" := by
  have g : ∀ (db : DB) (title : String) (fsmb : Option Int),
      api_create_video db title none fsmb =
        Except.error "Duration must be positive" := by
    intro db title fsmb
    simp [api_create_video, pyOrZero, crud_create_video]
  exact ⟨g, g [] "My Video" none⟩

/-- C8: deleting a video id absent from the table returns 404 and leaves
both the table (hence its row count) and the bucket unchanged, for every
storage configuration. -/
theorem api_delete_video_not_found (sa : Bool)
    (op : List String → List String × Option Bool)
    (db : DB) (bucket : List String) (vid : Nat)
    (h : crud_get_video db vid = none) :
    api_delete_video sa op db bucket vid =
      (db, bucket, Except.error (404, "Video not found")) ∧
    (api_delete_video sa op db bucket vid).1.length = db.length := by
  unfold api_delete_video
  rw [h]
  exact ⟨rfl, rfl⟩

/-- C8 witness: deleting id 2 from a one-row table holding only id 1. -/
theorem api_delete_video_not_found_witness :
    api_delete_video true (fun b => (b, some true)) [sampleVideo] [] 2 =
      ([sampleVideo], [], Except.error (404, "Video not found")) ∧
    (api_delete_video true (fun b => (b, some true)) [sampleVideo] [] 2).1.length =
      [sampleVideo].length :=
  api_delete_video_not_found true (fun b => (b, some true)) [sampleVideo] [] 2
    (by decide)

/-- C7: when the video exists, the endpoint removes its row and reports
success for EVERY storage-deletion outcome `op` (raising, returning
`False`, returning `True`) and every availability flag: a storage failure
never blocks the database delete. -/
theorem api_delete_video_storage_failure_ok (sa : Bool)
    (op : List String → List String × Option Bool)
    (db : DB) (bucket : List String) (vid : Nat)
    (h : (crud_get_video db vid).isSome = true) :
    (api_delete_video sa op db bucket vid).1 =
      db.eraseP (fun v => v.id == vid) ∧
    ((api_delete_video sa op db bucket vid).2.2).isOk = true := by
  obtain ⟨v, hv⟩ := Option.isSome_iff_exists.mp h
  unfold api_delete_video crud_delete_video
  rw [hv]
  simp [Except.isOk, Except.toBool]

/-- C7 witness: a stored video deleted while the storage delete raises
(oracle outcome `none`): the row is still removed and the call succeeds. -/
theorem api_delete_video_storage_failure_ok_witness :
    (api_delete_video true (fun b => (b, none)) [sampleVideoStored]
        ["uploads/x.mp4"] 1).1 =
      [sampleVideoStored].eraseP (fun v => v.id == 1) ∧
    ((api_delete_video true (fun b => (b, none)) [sampleVideoStored]
        ["uploads/x.mp4"] 1).2.2).isOk = true :=
  api_delete_video_storage_failure_ok true (fun b => (b, none))
    [sampleVideoStored] ["uploads/x.mp4"] 1 (by decide)

/-- C5: any upload whose payload starts with the four bytes `RIFF` is
rejected with HTTP 400 and inserts no row (for every title, filename and
storage outcome, with the upload service available): `get_file_type` maps
a RIFF header to `"video/avi"`, which `is_video_file` does not accept. -/
theorem api_upload_video_riff_rejected (uploadOk : Bool) (sp fu : String)
    (db : DB) (filename : String) (title : Option String) (data : List Nat)
    (h : data.take 4 = [0x52, 0x49, 0x46, 0x46]) :
    get_file_type data = "video/avi" ∧
    is_video_file "video/avi" = false ∧
    (api_upload_video true true uploadOk sp fu db filename title data).1 = db ∧
    ∃ d, (api_upload_video true true uploadOk sp fu db filename title data).2 =
      Except.error (400, d) := by
  have havi : ∀ l : List Nat, l.take 4 = [0x52, 0x49, 0x46, 0x46] →
      get_file_type l = "video/avi" := by
    intro l hl
    unfold get_file_type
    rw [hl]
    norm_num
  have h2048 : (data.take 2048).take 4 = [0x52, 0x49, 0x46, 0x46] := by
    rw [List.take_take]
    simpa using h
  rcases hvfs : validate_file_size data.length with ⟨b, msg⟩
  have hmain : api_upload_video true true uploadOk sp fu db filename title data =
      (db, Except.error (400,
        if b = false then msg.getD ""
        else "Invalid file type: " ++ "video/avi" ++ ". Only video files allowed.")) := by
    unfold api_upload_video
    dsimp only
    rw [if_neg (by simp : ¬ (true = false ∨ true = false))]
    rw [havi (data.take 2048) h2048, hvfs]
    cases b <;> simp [is_video_file]
  exact ⟨havi data h, by decide, by rw [hmain], ⟨_, by rw [hmain]⟩⟩

/-- C5 witness: the four-byte payload `RIFF` itself. -/
theorem api_upload_video_riff_rejected_witness :
    get_file_type [0x52, 0x49, 0x46, 0x46] = "video/avi" ∧
    is_video_file "video/avi" = false ∧
    (api_upload_video true true true "sp" "fu" [] "clip.avi" none
      [0x52, 0x49, 0x46, 0x46]).1 = [] ∧
    ∃ d, (api_upload_video true true true "sp" "fu" [] "clip.avi" none
      [0x52, 0x49, 0x46, 0x46]).2 = Except.error (400, d) :=
  api_upload_video_riff_rejected true "sp" "fu" [] "clip.avi" none
    [0x52, 0x49, 0x46, 0x46] (by decide)

/-- C1 counterexample: with 10001 rows in the table, `/api/stats` reports
`total_videos = 10000` (the hard-coded `limit=10000` of the underlying
list query), not the row count 10001, so the claimed equality fails. -/
theorem api_get_stats_limit_counterexample :
    (api_get_stats (List.replicate 10001 sampleVideo)).total_videos = 10000 ∧
    (List.replicate 10001 sampleVideo).length = 10001 ∧
    (api_get_stats (List.replicate 10001 sampleVideo)).total_videos ≠
      (List.replicate 10001 sampleVideo).length := by
  have h1 : (api_get_stats (List.replicate 10001 sampleVideo)).total_videos =
      (((List.replicate 10001 sampleVideo : DB).drop 0).take 10000).length := rfl
  have h2 : (api_get_stats (List.replicate 10001 sampleVideo)).total_videos = 10000 := by
    rw [h1, List.length_take, List.length_drop, List.length_replicate]
    decide
  have h3 : (List.replicate 10001 sampleVideo : DB).length = 10001 := by
    rw [List.length_replicate]
  exact ⟨h2, h3, by rw [h2, h3]; omega⟩

/-- C1 amended: whenever the table holds at most 10000 rows (the query
limit), `total_videos` equals the row count and the `status_breakdown`
counts sum to `total_videos`; with more rows `total_videos` is capped at
10000 while the breakdown still sums to the true row count. -/
theorem api_get_stats_spec (db : DB) (h : db.length ≤ 10000) :
    (api_get_stats db).total_videos = db.length ∧
    ((api_get_stats db).status_breakdown.map Prod.snd).sum =
      (api_get_stats db).total_videos := by
  have h1 : (api_get_stats db).total_videos = db.length := by
    simp [api_get_stats, crud_get_videos, List.length_take]
    omega
  refine ⟨h1, ?_⟩
  rw [h1]
  have hsum := List.sum_map_count_dedup_eq_length (db.map (fun v => v.status))
  simp only [api_get_stats, get_video_count_by_status, List.map_map]
  simpa using hsum

/-- C1 witness: a one-row table. -/
theorem api_get_stats_spec_witness :
    (api_get_stats [sampleVideo]).total_videos = [sampleVideo].length ∧
    ((api_get_stats [sampleVideo]).status_breakdown.map Prod.snd).sum =
      (api_get_stats [sampleVideo]).total_videos :=
  api_get_stats_spec [sampleVideo] (by decide)

/-- C6: the extension check accepts a filename exactly when the
`splitext` extension of its lowercased form belongs to the allow-list,
which is exactly `.mp4, .mov, .avi, .mkv, .webm`; in particular `.wmv` is
not on the list, so every filename whose (case-insensitive) extension is
`.wmv` is rejected regardless of the file's bytes (the byte content is not
even an input of the check), as checked concretely on each extension. -/
theorem validate_file_extension_spec :
    (∀ f : String, validate_file_extension f =
      ALLOWED_EXTENSIONS.contains (String.mk (splitext (pyLower f).data).2)) ∧
    ALLOWED_EXTENSIONS = [".mp4", ".mov", ".avi", ".mkv", ".webm"] ∧
    ALLOWED_EXTENSIONS.contains ".wmv" = false ∧
    (∀ f : String, String.mk (splitext (pyLower f).data).2 = ".wmv" →
      validate_file_extension f = false) ∧
    validate_file_extension "CLIP.WMV" = false ∧
    validate_file_extension "clip.wmv" = false ∧
    validate_file_extension "clip.mp4" = true ∧
    validate_file_extension "clip.mov" = true ∧
    validate_file_extension "clip.avi" = true ∧
    validate_file_extension "clip.mkv" = true ∧
    validate_file_extension "Clip.WebM" = true := by
  refine ⟨fun f => rfl, rfl, by decide, fun f hf => ?_, by decide, by decide,
    by decide, by decide, by decide, by decide, by decide⟩
  unfold validate_file_extension
  rw [hf]
  decide

/-- C6 witness: `HOLIDAY.WMV` has extension `.wmv` after lowering and is
rejected. -/
theorem validate_file_extension_spec_witness :
    String.mk (splitext (pyLower "HOLIDAY.WMV").data).2 = ".wmv" ∧
    validate_file_extension "HOLIDAY.WMV" = false :=
  ⟨by decide, validate_file_extension_spec.2.2.2.1 "HOLIDAY.WMV" (by decide)⟩

/-! ## Auxiliary lemmas about `pyReplace` and `sanitize_filename` -/

/-- `containsSub` decides contiguous occurrence. -/
theorem containsSub_eq_true_iff (pat : List Char) :
    ∀ l : List Char, containsSub pat l = true ↔ pat <:+: l := by
  intro l
  induction l with
  | nil =>
    simp [containsSub, List.isEmpty_iff, List.infix_nil]
  | cons c cs ih =>
    simp [containsSub, List.infix_cons_iff, ih]

/-- Replacement by a single character: `pyReplace [a] ['_']` is a map. -/
theorem pyReplace_single (a : Char) (s : List Char) :
    pyReplace [a] ['_'] s = s.map (fun c => if c = a then '_' else c) := by
  induction s with
  | nil => simp [pyReplace]
  | cons c cs ih =>
    rw [pyReplace]
    by_cases hca : c = a
    · subst hca
      rw [dif_pos ⟨by simp, by simp [List.isPrefixOf]⟩]
      simp [ih]
    · rw [dif_neg]
      · simp [ih, hca]
      · rintro ⟨-, hp⟩
        simp only [List.isPrefixOf, Bool.and_eq_true, beq_iff_eq] at hp
        exact hca hp.1.symm

/-- Every character of a `pyReplace _ ['_']` image is an original character
or the underscore. -/
theorem mem_pyReplace_underscore {c : Char} {pat : List Char} :
    ∀ s : List Char, c ∈ pyReplace pat ['_'] s → c ∈ s ∨ c = '_' := by
  intro s
  induction s using pyReplace.induct pat ['_'] with
  | case1 => simp [pyReplace]
  | case2 d ds h ih =>
    rw [pyReplace, dif_pos h]
    intro hm
    rcases List.mem_append.mp hm with hm | hm
    · right; simpa using hm
    · rcases ih hm with hm | hm
      · left; exact List.mem_of_mem_drop hm
      · right; exact hm
  | case3 d ds h ih =>
    rw [pyReplace, dif_neg h]
    intro hm
    rcases List.mem_cons.mp hm with hm | hm
    · left; simp [hm]
    · rcases ih hm with hm | hm
      · left; exact List.mem_cons_of_mem _ hm
      · right; exact hm

/-- A character other than underscore that is absent stays absent. -/
theorem not_mem_pyReplace {b : Char} {pat s : List Char} (hb : b ≠ '_')
    (h : b ∉ s) : b ∉ pyReplace pat ['_'] s := by
  intro hm
  rcases mem_pyReplace_underscore s hm with hm | hm
  · exact h hm
  · exact hb hm

/-- The pass for a character removes every occurrence of it. -/
theorem not_mem_pyReplace_self {b : Char} (hb : b ≠ '_') (s : List Char) :
    b ∉ pyReplace [b] ['_'] s := by
  rw [pyReplace_single]
  intro hm
  rcases List.mem_map.mp hm with ⟨y, -, hy⟩
  by_cases hyb : y = b
  · rw [if_pos hyb] at hy; exact hb hy.symm
  · rw [if_neg hyb] at hy; exact hyb hy

/-- A pattern that does not occur is not replaced. -/
theorem pyReplace_no_occurrence {pat rep : List Char} :
    ∀ s : List Char, ¬ pat <:+: s → pyReplace pat rep s = s := by
  intro s
  induction s using pyReplace.induct pat rep with
  | case1 => intro _; simp [pyReplace]
  | case2 d ds h ih =>
    intro hni
    exfalso
    exact hni (List.isPrefixOf_iff_prefix.mp h.2).isInfix
  | case3 d ds h ih =>
    intro hni
    rw [pyReplace, dif_neg h]
    rw [ih (fun hx => hni (List.infix_cons hx))]

/-- If the image of `pyReplace _ ['_']` starts with a dot, so did the
argument. -/
theorem pyReplace_dot_head {pat : List Char} (s t : List Char)
    (h : pyReplace pat ['_'] s = '.' :: t) : ∃ u, s = '.' :: u := by
  cases s with
  | nil => rw [pyReplace] at h; exact absurd h (by simp)
  | cons c cs =>
    rw [pyReplace] at h
    by_cases hp : pat ≠ [] ∧ pat.isPrefixOf (c :: cs)
    · rw [dif_pos hp] at h
      exact absurd (congrArg (fun l => l.head?) h) (by simp)
    · rw [dif_neg hp] at h
      injection h with h1 h2
      exact ⟨cs, by rw [h1]⟩

/-- The double-dot pass leaves no double dot behind. -/
theorem pyReplace_dd_no_dd :
    ∀ s : List Char, ¬ (['.', '.'] <:+: pyReplace ['.', '.'] ['_'] s) := by
  intro s
  induction s using pyReplace.induct ['.', '.'] ['_'] with
  | case1 => simp [pyReplace]
  | case2 d ds h ih =>
    rw [pyReplace, dif_pos h]
    intro hinf
    rcases List.infix_cons_iff.mp hinf with hp | hi
    · rcases List.cons_prefix_cons.mp hp with ⟨hc, -⟩
      exact absurd hc (by decide)
    · exact ih hi
  | case3 d ds h ih =>
    rw [pyReplace, dif_neg h]
    intro hinf
    rcases List.infix_cons_iff.mp hinf with hp | hi
    · rcases List.cons_prefix_cons.mp hp with ⟨hc, hp2⟩
      obtain ⟨t, ht⟩ := hp2
      obtain ⟨u, hu⟩ := pyReplace_dot_head ds t ht.symm
      refine h ⟨by simp, ?_⟩
      rw [← hc, hu]
      simp [List.isPrefixOf]
    · exact ih hi

/-- Character-wise maps that create no new dot preserve the absence of a
double dot. -/
theorem no_dd_map (f : Char → Char) (hf : ∀ x, f x = '.' → x = '.') :
    ∀ l : List Char, ¬ (['.', '.'] <:+: l) → ¬ (['.', '.'] <:+: l.map f) := by
  intro l
  induction l with
  | nil => intro h hinf; simp at hinf
  | cons c cs ih =>
    intro h hinf
    rw [List.map_cons] at hinf
    rcases List.infix_cons_iff.mp hinf with hp | hi
    · rcases List.cons_prefix_cons.mp hp with ⟨hc, hp2⟩
      have hcdot : c = '.' := hf c hc.symm
      obtain ⟨t, ht⟩ := hp2
      cases cs with
      | nil => simp at ht
      | cons d ds =>
        rw [List.map_cons] at ht
        have hd : f d = '.' := (List.cons.injEq .. ▸ ht.symm).1
        have hddot : d = '.' := hf d hd
        refine h (List.IsPrefix.isInfix ⟨ds, ?_⟩)
        rw [hcdot, hddot]
        rfl
    · exact ih (fun hx => h (List.infix_cons hx)) hi

/-- Single-character passes preserve the absence of a double dot. -/
theorem no_dd_single_pass (a : Char) {l : List Char}
    (h : ¬ (['.', '.'] <:+: l)) :
    ¬ (['.', '.'] <:+: pyReplace [a] ['_'] l) := by
  rw [pyReplace_single]
  refine no_dd_map _ (fun x hx => ?_) l h
  by_cases hxa : x = a
  · rw [if_pos hxa] at hx; exact absurd hx (by decide)
  · rwa [if_neg hxa] at hx

/-- A single character occurs as an infix exactly when it is a member. -/
theorem singleton_infix_iff_mem {a : Char} {l : List Char} :
    [a] <:+: l ↔ a ∈ l := by
  constructor
  · intro h
    exact List.singleton_sublist.mp h.sublist
  · intro h
    obtain ⟨s, t, ht⟩ := List.append_of_mem h
    exact ⟨s, t, by rw [ht]; simp⟩

/-- Absence of a non-underscore character is preserved by a whole fold of
underscore replacements. -/
theorem not_mem_foldl_pyReplace {b : Char} (hb : b ≠ '_') :
    ∀ (pats : List (List Char)) (l : List Char), b ∉ l →
      b ∉ pats.foldl (fun acc pat => pyReplace pat ['_'] acc) l := by
  intro pats
  induction pats with
  | nil => intro l h; simpa using h
  | cons p ps ih =>
    intro l h
    rw [List.foldl_cons]
    exact ih _ (not_mem_pyReplace hb h)

/-- No dangerous single character survives `sanitize_filename`. -/
theorem bad_char_not_mem_sanitizeList {b : Char} (hb : b ≠ '_')
    (hmem : [b] ∈ dangerous_chars) (l : List Char) : b ∉ sanitizeList l := by
  obtain ⟨front, back, hsplit⟩ := List.append_of_mem hmem
  unfold sanitizeList
  rw [hsplit, List.foldl_append, List.foldl_cons]
  exact not_mem_foldl_pyReplace hb back _
    (not_mem_pyReplace_self hb _)

/-- `sanitize_filename` output never contains two consecutive dots. -/
theorem sanitizeList_no_dd (l : List Char) :
    ¬ (['.', '.'] <:+: sanitizeList l) := by
  have heq : sanitizeList l =
      pyReplace ['*'] ['_'] (pyReplace ['?'] ['_'] (pyReplace ['|'] ['_']
        (pyReplace ['"'] ['_'] (pyReplace [':'] ['_'] (pyReplace ['>'] ['_']
          (pyReplace ['<'] ['_'] (pyReplace ['.', '.'] ['_']
            (pyReplace ['\\'] ['_'] (pyReplace ['/'] ['_'] l))))))))) := rfl
  rw [heq]
  exact no_dd_single_pass _ (no_dd_single_pass _ (no_dd_single_pass _
    (no_dd_single_pass _ (no_dd_single_pass _ (no_dd_single_pass _
      (no_dd_single_pass _ (pyReplace_dd_no_dd _)))))))

/-- A fold of replacements whose patterns never occur is the identity. -/
theorem foldl_pyReplace_id :
    ∀ (pats : List (List Char)) (l : List Char),
      (∀ pat ∈ pats, ¬ pat <:+: l) →
      pats.foldl (fun acc pat => pyReplace pat ['_'] acc) l = l := by
  intro pats
  induction pats with
  | nil => intro l _; rfl
  | cons p ps ih =>
    intro l h
    rw [List.foldl_cons, pyReplace_no_occurrence l (h p (List.mem_cons_self p ps))]
    exact ih l (fun pat hp => h pat (List.mem_cons_of_mem _ hp))

/-- `sanitizeList` is idempotent. -/
theorem sanitizeList_idem (l : List Char) :
    sanitizeList (sanitizeList l) = sanitizeList l := by
  have h : ∀ pat ∈ dangerous_chars, ¬ pat <:+: sanitizeList l := by
    intro pat hp
    fin_cases hp
    · rw [singleton_infix_iff_mem]
      exact bad_char_not_mem_sanitizeList (by decide) (by decide) l
    · rw [singleton_infix_iff_mem]
      exact bad_char_not_mem_sanitizeList (by decide) (by decide) l
    · exact sanitizeList_no_dd l
    · rw [singleton_infix_iff_mem]
      exact bad_char_not_mem_sanitizeList (by decide) (by decide) l
    · rw [singleton_infix_iff_mem]
      exact bad_char_not_mem_sanitizeList (by decide) (by decide) l
    · rw [singleton_infix_iff_mem]
      exact bad_char_not_mem_sanitizeList (by decide) (by decide) l
    · rw [singleton_infix_iff_mem]
      exact bad_char_not_mem_sanitizeList (by decide) (by decide) l
    · rw [singleton_infix_iff_mem]
      exact bad_char_not_mem_sanitizeList (by decide) (by decide) l
    · rw [singleton_infix_iff_mem]
      exact bad_char_not_mem_sanitizeList (by decide) (by decide) l
    · rw [singleton_infix_iff_mem]
      exact bad_char_not_mem_sanitizeList (by decide) (by decide) l
  exact foldl_pyReplace_id dangerous_chars (sanitizeList l) h

/-- C10: for every input, `sanitize_filename` returns a string containing
none of the nine dangerous characters and no occurrence of the substring
`".."`, and it is idempotent. -/
theorem sanitize_filename_spec :
    ∀ s : String,
      (['/', '\\', '<', '>', ':', '"', '|', '?', '*'] : List Char).all
        (fun c => !((sanitize_filename s).data.contains c)) = true ∧
      containsSub ['.', '.'] (sanitize_filename s).data = false ∧
      sanitize_filename (sanitize_filename s) = sanitize_filename s := by
  intro s
  have hdata : (sanitize_filename s).data = sanitizeList s.data := rfl
  refine ⟨?_, ?_, ?_⟩
  · rw [List.all_eq_true]
    intro c hc
    rw [hdata, Bool.not_eq_true']
    have hnm : c ∉ sanitizeList s.data := by
      fin_cases hc <;>
        exact bad_char_not_mem_sanitizeList (by decide) (by decide) s.data
    rcases he : (sanitizeList s.data).contains c with _ | _
    · rfl
    · exact absurd (List.elem_iff.mp he) hnm
  · rw [hdata]
    rcases hb : containsSub ['.', '.'] (sanitizeList s.data) with _ | _
    · rfl
    · exact absurd ((containsSub_eq_true_iff _ _).mp hb) (sanitizeList_no_dd s.data)
  · show String.mk (sanitizeList (sanitize_filename s).data) = sanitize_filename s
    rw [hdata, sanitizeList_idem]
    rfl

end StreamScribe
